import Mathlib

/-!
Verification of the rate-gated engagement-automation engine of
`x-automation-tool` against its natural-language specification.

The definitions below are a shallow embedding of the Python source:

* `TokenBucket` and its operations embed `TokenBucket` of
  `backend/core/rate_limiter.py` (`_refill`, `consume`,
  `get_available_tokens`, `time_until_token_available`).
* `EndpointState` with `can_make_request`, `consume_request` and
  `handle_429_error` embeds the per-endpoint slice of `UserRateLimiter`
  (the pair of 15-minute / 24-hour buckets plus the request history kept
  for one `APIEndpoint`).
* Python floats and wall-clock times are embedded as rationals (`ℚ`);
  time is passed explicitly where the source reads `time.time()`.
-/

/-- Embeds the `TokenBucket` dataclass of `backend/core/rate_limiter.py`. -/
structure TokenBucket where
  capacity : ℚ
  tokens : ℚ
  last_refill : ℚ
  refill_rate : ℚ
deriving Repr, DecidableEq

namespace TokenBucket

/-- Embeds `TokenBucket._refill` at explicit current time `now`:
`tokens = min(capacity, tokens + elapsed * refill_rate)` and
`last_refill = now`, guarded by `elapsed > 0`. -/
def refill (b : TokenBucket) (now : ℚ) : TokenBucket :=
  let elapsed := now - b.last_refill
  if 0 < elapsed then
    { b with
      tokens := min b.capacity (b.tokens + elapsed * b.refill_rate)
      last_refill := now }
  else b

/-- Embeds `TokenBucket.consume(tokens)`: refill lazily, then decrement by
`n` when `self.tokens >= tokens`, returning whether consumption happened
together with the updated bucket (the Python method mutates in place). -/
def consume (b : TokenBucket) (now : ℚ) (n : ℚ) : Bool × TokenBucket :=
  let b1 := b.refill now
  if n ≤ b1.tokens then
    (true, { b1 with tokens := b1.tokens - n })
  else
    (false, b1)

/-- Embeds `TokenBucket.time_until_token_available`: seconds until one token
is available, after a lazy refill. -/
def time_until_token_available (b : TokenBucket) (now : ℚ) : ℚ × TokenBucket :=
  let b1 := b.refill now
  if 1 ≤ b1.tokens then (0, b1)
  else ((1 - b1.tokens) / b1.refill_rate, b1)

end TokenBucket

/-- The per-`APIEndpoint` slice of `UserRateLimiter`: its 15-minute bucket,
its 24-hour bucket and its request-history list (timestamps). -/
structure EndpointState where
  bucket_15min : TokenBucket
  bucket_24hour : TokenBucket
  request_history : List ℚ
deriving Repr, DecidableEq

namespace EndpointState

/-- Embeds `UserRateLimiter.can_make_request` for one endpoint: it calls
`bucket.consume(0)` on the 15-minute bucket ("check without consuming") and,
if that fails, reports the wait time; then the same on the 24-hour bucket.
Both `consume(0)` calls refill the buckets as a side effect, so the updated
state is returned alongside the `(allowed, retry_after?)` answer. -/
def can_make_request (s : EndpointState) (now : ℚ) :
    (Bool × Option ℚ) × EndpointState :=
  let r15 := s.bucket_15min.consume now 0
  if !r15.1 then
    let w15 := r15.2.time_until_token_available now
    ((false, some w15.1), { s with bucket_15min := w15.2 })
  else
    let r24 := s.bucket_24hour.consume now 0
    if !r24.1 then
      let w24 := r24.2.time_until_token_available now
      ((false, some w24.1), { s with bucket_15min := r15.2, bucket_24hour := w24.2 })
    else
      ((true, none), { s with bucket_15min := r15.2, bucket_24hour := r24.2 })

/-- Embeds `UserRateLimiter.consume_request` for one endpoint: it calls
`consume(1)` on the 15-minute bucket and `consume(1)` on the 24-hour bucket
unconditionally, and only if both succeeded appends `now` to the request
history, prunes entries older than 24 hours and returns `True`. -/
def consume_request (s : EndpointState) (now : ℚ) : Bool × EndpointState :=
  let r15 := s.bucket_15min.consume now 1
  let r24 := s.bucket_24hour.consume now 1
  if r15.1 && r24.1 then
    let cutoff := now - 24 * 60 * 60
    (true,
      { bucket_15min := r15.2
        bucket_24hour := r24.2
        request_history := (s.request_history ++ [now]).filter (fun t => cutoff < t) })
  else
    (false, { s with bucket_15min := r15.2, bucket_24hour := r24.2 })

/-- Embeds `UserRateLimiter.handle_429_error` for one endpoint: the
15-minute bucket's tokens are forced to `0`; the optional `reset_time`
argument is only used to compute a logged wait time and changes no state. -/
def handle_429_error (s : EndpointState) (_reset_time : Option ℚ) : EndpointState :=
  { s with bucket_15min := { s.bucket_15min with tokens := 0 } }

end EndpointState

/-- The persisted form of one bucket, as written by
`UserRateLimiter._save_state` (`capacity`, `tokens`, `last_refill`,
`refill_rate`). -/
structure BucketRecord where
  capacity : ℚ
  tokens : ℚ
  last_refill : ℚ
  refill_rate : ℚ
deriving Repr, DecidableEq

/-- The persisted per-endpoint slice of the state file written by
`UserRateLimiter._save_state`: both bucket records plus the request
history. -/
structure EndpointRecord where
  bucket_15min : BucketRecord
  bucket_24hour : BucketRecord
  request_history : List ℚ
deriving Repr, DecidableEq

/-- Embeds the `_save_state` serialization of one bucket. -/
def saveBucket (b : TokenBucket) : BucketRecord :=
  ⟨b.capacity, b.tokens, b.last_refill, b.refill_rate⟩

/-- Embeds the `_load_state` reconstruction `TokenBucket(**bucket_data)`. -/
def loadBucket (r : BucketRecord) : TokenBucket :=
  ⟨r.capacity, r.tokens, r.last_refill, r.refill_rate⟩

/-- Embeds `_save_state` for one endpoint slice. -/
def saveEndpoint (s : EndpointState) : EndpointRecord :=
  ⟨saveBucket s.bucket_15min, saveBucket s.bucket_24hour, s.request_history⟩

/-- Embeds `_load_state` for one endpoint slice. -/
def loadEndpoint (r : EndpointRecord) : EndpointState :=
  ⟨loadBucket r.bucket_15min, loadBucket r.bucket_24hour, r.request_history⟩

/-- Reachable token-bucket states: start as `_initialize_buckets` does
(full bucket, nonnegative capacity and refill rate) and close under the
operations the source performs on a bucket
(`_refill`, `consume`, forcing tokens to `0` in `handle_429_error`). -/
inductive TokenBucket.Reachable : TokenBucket → Prop
  | init (capacity rate now : ℚ) (hcap : 0 ≤ capacity) (hrate : 0 ≤ rate) :
      TokenBucket.Reachable ⟨capacity, capacity, now, rate⟩
  | refillStep (b : TokenBucket) (now : ℚ) (hb : TokenBucket.Reachable b) :
      TokenBucket.Reachable (b.refill now)
  | consumeStep (b : TokenBucket) (now n : ℚ) (hn : 0 ≤ n)
      (hb : TokenBucket.Reachable b) :
      TokenBucket.Reachable (b.consume now n).2
  | rateLimited (b : TokenBucket) (hb : TokenBucket.Reachable b) :
      TokenBucket.Reachable { b with tokens := 0 }

/-!
Embedding of `backend/ai/post_analyzer.py`: the decision rule table
`_determine_recommended_action`, the confidence computation
`_calculate_confidence`, and the error-substitution performed by
`analyze_for_like_and_retweet` over the results of its sub-analysis tasks
(`asyncio.gather(..., return_exceptions=True)`); a sub-task that raised is
embedded as `none`.
-/

/-- Risk levels: the source uses the strings 低 / 中 / 高. -/
inductive RiskLevel
  | low
  | medium
  | high
deriving Repr, DecidableEq

/-- The decision-relevant part of `_analyze_safety`'s result dict. -/
structure SafetyResult where
  safe : Bool
deriving Repr, DecidableEq

/-- The recommended-action strings of `_determine_recommended_action`. -/
inductive RecAction
  | like
  | retweet
  | both
  | skip
deriving Repr, DecidableEq

/-- Embeds `PostAnalyzer._determine_recommended_action`. -/
def determine_recommended_action (like_score retweet_score : ℤ)
    (safety_check : SafetyResult) (risk_level : RiskLevel) : RecAction :=
  if !safety_check.safe || risk_level == RiskLevel.high then RecAction.skip
  else if 75 ≤ like_score ∧ 75 ≤ retweet_score then RecAction.both
  else if 70 ≤ like_score then RecAction.like
  else if 70 ≤ retweet_score then RecAction.retweet
  else if 60 ≤ like_score ∨ 60 ≤ retweet_score then
    if retweet_score < like_score then RecAction.like else RecAction.retweet
  else RecAction.skip

/-- Embeds `PostAnalyzer._calculate_confidence`. -/
def calculate_confidence (like_score retweet_score : ℤ)
    (safety_check : SafetyResult) : ℚ :=
  let m := max like_score retweet_score
  let c1 : ℚ := 7/10
  let c2 : ℚ := if 80 ≤ m then c1 + 2/10 else if m ≤ 30 then c1 + 1/10 else c1
  let c3 : ℚ := if safety_check.safe then c2 + 1/10 else c2 - 2/10
  max 0 (min 1 c3)

/-- The outcomes of the sub-analysis tasks gathered by
`analyze_for_like_and_retweet`; `none` embeds a task that raised an
exception (only the decision-relevant tasks are modelled). -/
structure SubtaskResults where
  like_score : Option ℤ
  retweet_score : Option ℤ
  safety : Option SafetyResult
  risk_level : Option RiskLevel
deriving Repr, DecidableEq

/-- The decision-relevant fields of the analysis dict returned by
`analyze_for_like_and_retweet`. -/
structure AnalysisResult where
  like_score : ℤ
  retweet_score : ℤ
  safety_check : Bool
  risk_level : RiskLevel
  recommended_action : RecAction
  confidence : ℚ
deriving Repr, DecidableEq

/-- Embeds the per-task error substitution of
`analyze_for_like_and_retweet`: a raised like/retweet score task becomes
`0`, a raised safety task becomes `safe=False`, a raised risk task becomes
高 (high); the decision and confidence are then computed from the
substituted values. -/
def analyze_for_like_and_retweet (r : SubtaskResults) : AnalysisResult :=
  let like_score := r.like_score.getD 0
  let retweet_score := r.retweet_score.getD 0
  let safety := r.safety.getD ⟨false⟩
  let risk := r.risk_level.getD RiskLevel.high
  { like_score := like_score
    retweet_score := retweet_score
    safety_check := safety.safe
    risk_level := risk
    recommended_action := determine_recommended_action like_score retweet_score safety risk
    confidence := calculate_confidence like_score retweet_score safety }

/-- Modelled from the spec: the §4.3 rule table exactly as the spec words
it (blacklist, safety, `both` at 70/70, single-action at 70, then the
`max ≥ minimumEngagementScore` rule taking whichever score is higher; the
spec leaves ties unspecified, resolved here as the source does). Used only
to compare the spec's table against `determine_recommended_action`. -/
def specRecommendedAction (like_score retweet_score min_engagement_score : ℤ)
    (blacklisted : Bool) (safe : Bool) (risk : RiskLevel) : RecAction :=
  if blacklisted then RecAction.skip
  else if !safe || risk == RiskLevel.high then RecAction.skip
  else if 70 ≤ like_score ∧ 70 ≤ retweet_score then RecAction.both
  else if 70 ≤ like_score then RecAction.like
  else if 70 ≤ retweet_score then RecAction.retweet
  else if min_engagement_score ≤ max like_score retweet_score then
    if retweet_score < like_score then RecAction.like else RecAction.retweet
  else RecAction.skip

/-- Modelled from the spec, amended where the code differs: `both`
requires both scores ≥ 75 (not 70), and the final threshold is the
hard-coded 60 (the configured `min_engagement_score` setting is not
consulted by `_determine_recommended_action`). -/
def amendedRecommendedAction (like_score retweet_score : ℤ) : RecAction :=
  if 75 ≤ like_score ∧ 75 ≤ retweet_score then RecAction.both
  else if 70 ≤ like_score then RecAction.like
  else if 70 ≤ retweet_score then RecAction.retweet
  else if 60 ≤ max like_score retweet_score then
    if retweet_score < like_score then RecAction.like else RecAction.retweet
  else RecAction.skip

/-!
Embedding of `backend/core/twitter_client.py`: the order of rate-limiter
interactions around one externally visible platform call.  `like_tweet`
and `get_tweet_liking_users` both follow the same source pattern:
`can_make_request` before the call, the tweepy call itself, then
`consume_request` after the call (its boolean result is discarded); a
`tweepy.TooManyRequests` exception triggers `handle_429_error`.  The
executor invokes `like_tweet` with `safety_check=False`, so the safety
branch is not taken on the automation path and is not modelled.  The
trace of rate-limiter and platform interactions is recorded explicitly.
-/

/-- One observable step of a client method: the `can_make_request` answer,
the external platform call itself, or the `consume_request` afterwards
(with its discarded boolean result). -/
inductive ClientEvent
  | rate_check (allowed : Bool)
  | external_call
  | consumed (ok : Bool)
deriving Repr, DecidableEq

/-- How the upstream platform reacts to the issued call: a normal response
(with the `liked`/`retweeted` flag of `response.data`) or a
`tweepy.TooManyRequests` exception. -/
inductive UpstreamOutcome
  | responds (ok : Bool)
  | tooManyRequests
deriving Repr, DecidableEq

/-- The result of a client method: overall success plus the trace of
events, in the order the source performs them. -/
structure ClientResult where
  success : Bool
  events : List ClientEvent
deriving Repr, DecidableEq

/-- Embeds `TwitterClient.like_tweet` (automation path,
`safety_check=False`) acting on the LIKE endpoint slice `s`. -/
def like_tweet (client_available : Bool) (s : EndpointState) (now : ℚ)
    (outcome : UpstreamOutcome) (reset_time : Option ℚ) :
    ClientResult × EndpointState :=
  if !client_available then ({ success := false, events := [] }, s)
  else
    let chk := s.can_make_request now
    if !chk.1.1 then
      ({ success := false, events := [ClientEvent.rate_check false] }, chk.2)
    else
      match outcome with
      | UpstreamOutcome.tooManyRequests =>
          ({ success := false,
             events := [ClientEvent.rate_check true, ClientEvent.external_call] },
           chk.2.handle_429_error reset_time)
      | UpstreamOutcome.responds liked =>
          let con := chk.2.consume_request now
          ({ success := liked,
             events := [ClientEvent.rate_check true, ClientEvent.external_call,
                        ClientEvent.consumed con.1] },
           con.2)

/-- Embeds `TwitterClient.get_tweet_liking_users` acting on the
GET_LIKING_USERS endpoint slice `s`; on a normal response the user list is
returned after `consume_request`, on 429 the empty list is returned after
`handle_429_error`. -/
def get_tweet_liking_users (client_available : Bool) (s : EndpointState)
    (now : ℚ) (outcome : UpstreamOutcome) (reset_time : Option ℚ) :
    ClientResult × EndpointState :=
  if !client_available then ({ success := false, events := [] }, s)
  else
    let chk := s.can_make_request now
    if !chk.1.1 then
      ({ success := false, events := [ClientEvent.rate_check false] }, chk.2)
    else
      match outcome with
      | UpstreamOutcome.tooManyRequests =>
          ({ success := false,
             events := [ClientEvent.rate_check true, ClientEvent.external_call] },
           chk.2.handle_429_error reset_time)
      | UpstreamOutcome.responds _ =>
          let con := chk.2.consume_request now
          ({ success := true,
             events := [ClientEvent.rate_check true, ClientEvent.external_call,
                        ClientEvent.consumed con.1] },
           con.2)

/-!
Embedding of `backend/services/action_executor.py`:
`EngagementAutomationExecutor.is_available`, the per-candidate loop of
`execute_selected_actions` with `_execute_like_action` /
`_execute_retweet_action`, and the engagement-history records written by
`_save_execution_record` (trimmed to the newest 200 entries).  The
external client is abstracted by `client_ok : APICall → Bool`, giving the
success of each issued invocation; the list of issued `APICall`s is the
observable trace of externally visible actions.  Dates are modelled within
one day (`_reset_daily_stats` does not fire mid-session).
-/

/-- The decision-relevant automation settings (`settings.json`). -/
structure AutomationSettings where
  max_daily_actions : Nat
  auto_like_enabled : Bool
  auto_retweet_enabled : Bool
  active_hours_start : Nat
  active_hours_end : Nat
deriving Repr, DecidableEq

/-- Embeds `EngagementAutomationExecutor.is_available`: client available,
`daily_count < max_daily_actions`, and
`active_start <= current_hour <= active_end`. -/
def is_available (twitter_ok : Bool) (daily_count : Nat)
    (stg : AutomationSettings) (current_hour : Nat) : Bool :=
  twitter_ok &&
  decide (daily_count < stg.max_daily_actions) &&
  decide (stg.active_hours_start ≤ current_hour) &&
  decide (current_hour ≤ stg.active_hours_end)

/-- One selected analysis entry handed to `execute_selected_actions`. -/
structure UserAnalysis where
  user_id : String
  tweet_id : String
  recommended_action : RecAction
deriving Repr, DecidableEq

/-- One engagement-history record written by `_save_execution_record`. -/
structure ExecutionRecord where
  action : RecAction
  tweet_id : String
  success : Bool
deriving Repr, DecidableEq

/-- An externally visible client invocation issued by the executor. -/
inductive APICall
  | like (tweet_id : String)
  | retweet (tweet_id : String)
deriving Repr, DecidableEq

/-- One entry of the `results` list of `execute_selected_actions`. -/
inductive ActionResult
  | skipped (user_id : String)
  | attempted (user_id : String) (tweet_id : String) (action : RecAction)
      (success : Bool)
deriving Repr, DecidableEq

/-- The evolving state of one `execute_selected_actions` session. -/
structure SessionState where
  daily_count : Nat
  history : List ExecutionRecord
  calls : List APICall
  results : List ActionResult
  successful_actions : Nat
deriving Repr, DecidableEq

/-- Embeds the history trimming of `_save_execution_record`: keep the
newest 200 records. -/
def trimHistory (h : List ExecutionRecord) : List ExecutionRecord :=
  if 200 < h.length then h.drop (h.length - 200) else h

/-- Embeds `_execute_like_action` (also the `both` path, which the loop
degrades to the like path): when auto-like is enabled the client is
invoked; on success the daily count, history and stats are updated. -/
def execute_like (stg : AutomationSettings) (client_ok : APICall → Bool)
    (st : SessionState) (a : UserAnalysis) : SessionState :=
  if !stg.auto_like_enabled then
    { st with results := st.results ++
        [ActionResult.attempted a.user_id a.tweet_id a.recommended_action false] }
  else
    let call := APICall.like a.tweet_id
    let ok := client_ok call
    if ok then
      { daily_count := st.daily_count + 1
        history := trimHistory (st.history ++ [⟨RecAction.like, a.tweet_id, true⟩])
        calls := st.calls ++ [call]
        results := st.results ++
          [ActionResult.attempted a.user_id a.tweet_id a.recommended_action true]
        successful_actions := st.successful_actions + 1 }
    else
      { st with
        calls := st.calls ++ [call]
        results := st.results ++
          [ActionResult.attempted a.user_id a.tweet_id a.recommended_action false] }

/-- Embeds `_execute_retweet_action`. -/
def execute_retweet (stg : AutomationSettings) (client_ok : APICall → Bool)
    (st : SessionState) (a : UserAnalysis) : SessionState :=
  if !stg.auto_retweet_enabled then
    { st with results := st.results ++
        [ActionResult.attempted a.user_id a.tweet_id a.recommended_action false] }
  else
    let call := APICall.retweet a.tweet_id
    let ok := client_ok call
    if ok then
      { daily_count := st.daily_count + 1
        history := trimHistory (st.history ++ [⟨RecAction.retweet, a.tweet_id, true⟩])
        calls := st.calls ++ [call]
        results := st.results ++
          [ActionResult.attempted a.user_id a.tweet_id a.recommended_action true]
        successful_actions := st.successful_actions + 1 }
    else
      { st with
        calls := st.calls ++ [call]
        results := st.results ++
          [ActionResult.attempted a.user_id a.tweet_id a.recommended_action false] }

/-- One iteration of the candidate loop of `execute_selected_actions`:
`skip` is recorded without any client invocation; `both` runs the like
path only. -/
def execute_one (stg : AutomationSettings) (client_ok : APICall → Bool)
    (st : SessionState) (a : UserAnalysis) : SessionState :=
  match a.recommended_action with
  | RecAction.skip =>
      { st with results := st.results ++ [ActionResult.skipped a.user_id] }
  | RecAction.like => execute_like stg client_ok st a
  | RecAction.both => execute_like stg client_ok st a
  | RecAction.retweet => execute_retweet stg client_ok st a

/-- Embeds `EngagementAutomationExecutor.execute_selected_actions`:
`is_available` is consulted once, before the loop (`none` embeds the early
error return); then every candidate is processed in order. -/
def execute_selected_actions (twitter_ok : Bool) (stg : AutomationSettings)
    (current_hour : Nat) (client_ok : APICall → Bool) (daily_count0 : Nat)
    (history0 : List ExecutionRecord) (analyses : List UserAnalysis) :
    Option SessionState :=
  if !is_available twitter_ok daily_count0 stg current_hour then none
  else
    some (analyses.foldl (execute_one stg client_ok)
      { daily_count := daily_count0
        history := history0
        calls := []
        results := []
        successful_actions := 0 })

/-- The client invocations the loop issues for one candidate, as a
function of the decision and the enable flags alone. -/
def callsOf (stg : AutomationSettings) (a : UserAnalysis) : List APICall :=
  match a.recommended_action with
  | RecAction.skip => []
  | RecAction.retweet =>
      if stg.auto_retweet_enabled then [APICall.retweet a.tweet_id] else []
  | _ => if stg.auto_like_enabled then [APICall.like a.tweet_id] else []

/-- The full planned invocation trace of a session: candidate by
candidate, independent of any execution history or quota state. -/
def plannedCalls (stg : AutomationSettings) : List UserAnalysis → List APICall
  | [] => []
  | a :: rest => callsOf stg a ++ plannedCalls stg rest

/-!
Concrete states used in scenario theorems, drawn from the LIKE entry of
`RATE_LIMITS` (1 request / 15 min, 1000 / 24 h).
-/

/-- A freshly initialized LIKE 15-minute bucket. -/
def likeBucket15 : TokenBucket := ⟨1, 1, 0, 1/900⟩

/-- A freshly initialized LIKE 24-hour bucket. -/
def likeBucket24 : TokenBucket := ⟨1000, 1000, 0, 1000/86400⟩

/-- A freshly initialized LIKE endpoint slice. -/
def sLike : EndpointState := ⟨likeBucket15, likeBucket24, []⟩

/-- A LIKE endpoint slice whose short bucket is exhausted (0 tokens at
time 100) while the long bucket still holds 10 tokens. -/
def sShortEmpty : EndpointState :=
  ⟨⟨1, 0, 100, 1/900⟩, ⟨1000, 10, 100, 1000/86400⟩, []⟩

/-- Automation settings with a daily quota of 2 (all features enabled,
active hours 0–23). -/
def stg2 : AutomationSettings := ⟨2, true, true, 0, 23⟩

/-- The default automation settings of `_load_user_settings`
(`max_daily_actions=30`, both features enabled, active hours 8–22). -/
def stg30 : AutomationSettings := ⟨30, true, true, 8, 22⟩

/-- The bucket invariant of the spec: nonnegative configuration and
`0 ≤ tokens ≤ capacity`. -/
def TokenBucket.Inv (b : TokenBucket) : Prop :=
  0 ≤ b.capacity ∧ 0 ≤ b.refill_rate ∧ 0 ≤ b.tokens ∧ b.tokens ≤ b.capacity

lemma TokenBucket.refill_inv (b : TokenBucket) (now : ℚ) (h : b.Inv) :
    (b.refill now).Inv := by
  obtain ⟨hc, hr, h0, h1⟩ := h
  unfold TokenBucket.refill
  dsimp only
  split_ifs with he
  · refine ⟨hc, hr, ?_, ?_⟩
    · have : 0 ≤ (now - b.last_refill) * b.refill_rate :=
        mul_nonneg (le_of_lt he) hr
      exact le_min hc (by linarith)
    · exact min_le_left _ _
  · exact ⟨hc, hr, h0, h1⟩

lemma TokenBucket.consume_inv (b : TokenBucket) (now n : ℚ) (hn : 0 ≤ n)
    (h : b.Inv) : ((b.consume now n).2).Inv := by
  have h1 := b.refill_inv now h
  obtain ⟨hc, hr, h0, hcap⟩ := h1
  unfold TokenBucket.consume
  dsimp only
  split_ifs with hle
  · refine ⟨hc, hr, ?_, ?_⟩
    · show 0 ≤ (b.refill now).tokens - n
      linarith
    · show (b.refill now).tokens - n ≤ (b.refill now).capacity
      linarith
  · exact ⟨hc, hr, h0, hcap⟩

lemma TokenBucket.reachable_inv (b : TokenBucket) (h : b.Reachable) : b.Inv := by
  induction h with
  | init capacity rate now hcap hrate => exact ⟨hcap, hrate, hcap, le_refl _⟩
  | refillStep b now hb ih => exact b.refill_inv now ih
  | consumeStep b now n hn hb ih => exact b.consume_inv now n hn ih
  | rateLimited b hb ih =>
      obtain ⟨hc, hr, _, _⟩ := ih
      exact ⟨hc, hr, le_refl 0, hc⟩

/-- C6: for every reachable token-bucket state — initialization as in
`_initialize_buckets`, then any interleaving of lazy refills, `consume`
calls (including the `consume(0)` peeks of `can_make_request` and the
`consume(1)` calls of `consume_request`) and the token zeroing of
`handle_429_error` — the invariant `0 ≤ tokens ≤ capacity` holds. -/
theorem C6_bucket_invariant (b : TokenBucket) (hb : b.Reachable) :
    0 ≤ b.tokens ∧ b.tokens ≤ b.capacity :=
  ⟨(b.reachable_inv hb).2.2.1, (b.reachable_inv hb).2.2.2⟩

/-- Witness for C6 at a concrete reachable state: the LIKE short bucket
after one successful `consume(1)` at time 0. -/
theorem C6_bucket_invariant_witness :
    0 ≤ ((likeBucket15.consume 0 1).2).tokens ∧
    ((likeBucket15.consume 0 1).2).tokens ≤ ((likeBucket15.consume 0 1).2).capacity :=
  C6_bucket_invariant _
    (TokenBucket.Reachable.consumeStep likeBucket15 0 1 (by norm_num)
      (TokenBucket.Reachable.init 1 (1/900) 0 (by norm_num) (by norm_num)))

/-- C1 counterexample: with `shortTokens=0` and `longTokens=10` (at the
bucket's own `last_refill` time, so no refill occurs), `consume_request`
returns `false` but the 24-hour bucket has been decremented to 9 — the
claimed "no partial consumption" fails. -/
theorem C1_counterexample :
    (sShortEmpty.consume_request 100).1 = false ∧
    (sShortEmpty.consume_request 100).2.bucket_24hour.tokens = 9 := by
  constructor <;>
    norm_num [sShortEmpty, EndpointState.consume_request, TokenBucket.consume,
      TokenBucket.refill]

/-- C1 amended: `consume_request` attempts `consume(1)` on both buckets
unconditionally; it returns `true` only when both succeed, but when the
short bucket (after lazy refill) holds fewer than 1 token while the long
bucket holds at least 1, it returns `false` with the long bucket
nevertheless decremented by exactly 1 — consumption is per-bucket, not
atomic across the pair. -/
theorem C1_partial_consumption (s : EndpointState) (now : ℚ)
    (h15 : (s.bucket_15min.refill now).tokens < 1)
    (h24 : 1 ≤ (s.bucket_24hour.refill now).tokens) :
    (s.consume_request now).1 = false ∧
    (s.consume_request now).2.bucket_24hour.tokens
      = (s.bucket_24hour.refill now).tokens - 1 := by
  simp only [EndpointState.consume_request, TokenBucket.consume]
  rw [if_neg (not_le.mpr h15), if_pos h24]
  simp

/-- Witness for C1 at the concrete `shortTokens=0, longTokens=10` state. -/
theorem C1_partial_consumption_witness :
    (sShortEmpty.consume_request 100).1 = false ∧
    (sShortEmpty.consume_request 100).2.bucket_24hour.tokens
      = (sShortEmpty.bucket_24hour.refill 100).tokens - 1 :=
  C1_partial_consumption sShortEmpty 100
    (by norm_num [sShortEmpty, TokenBucket.refill])
    (by norm_num [sShortEmpty, TokenBucket.refill])

lemma EndpointState.can_make_request_allows (s : EndpointState) (now : ℚ)
    (h15 : 0 ≤ (s.bucket_15min.refill now).tokens)
    (h24 : 0 ≤ (s.bucket_24hour.refill now).tokens) :
    s.can_make_request now
      = ((true, none),
         ⟨s.bucket_15min.refill now, s.bucket_24hour.refill now,
          s.request_history⟩) := by
  simp only [EndpointState.can_make_request, TokenBucket.consume]
  rw [if_pos h15, if_pos h24]
  simp

/-- C7 counterexample: after `handle_429_error` with `reset_time = 600` on
the fresh LIKE slice (429 at time 0), `can_make_request` at time 300 —
strictly before the reset time — already answers `(allowed=true, no
retry-after)`, because its availability check is `consume(0)`, which
succeeds whenever the token count is nonnegative. -/
theorem C7_counterexample :
    ((sLike.handle_429_error (some 600)).can_make_request 300).1 = (true, none) := by
  norm_num [sLike, likeBucket15, likeBucket24, EndpointState.handle_429_error,
    EndpointState.can_make_request, TokenBucket.consume, TokenBucket.refill]

/-- C7 amended: `handle_429_error` forces the short bucket's tokens to 0
immediately, but the `reset_time` argument changes nothing (the state
after the call is identical with and without it — refill stays anchored
to `last_refill`, accruing at the steady rate), and `can_make_request`
answers `(true, none)` at every time at which the lazily refilled token
counts are nonnegative, reset time or not. -/
theorem C7_handle_429_amended (s : EndpointState) (r : Option ℚ) (now : ℚ)
    (h15 : 0 ≤ ((s.handle_429_error r).bucket_15min.refill now).tokens)
    (h24 : 0 ≤ ((s.handle_429_error r).bucket_24hour.refill now).tokens) :
    (s.handle_429_error r).bucket_15min.tokens = 0 ∧
    s.handle_429_error r = s.handle_429_error none ∧
    ((s.handle_429_error r).can_make_request now).1 = (true, none) := by
  refine ⟨rfl, rfl, ?_⟩
  rw [EndpointState.can_make_request_allows _ now h15 h24]

/-- Witness for C7 at the concrete post-429 LIKE slice, at time 300 with
reset time 600. -/
theorem C7_handle_429_amended_witness :
    (sLike.handle_429_error (some 600)).bucket_15min.tokens = 0 ∧
    sLike.handle_429_error (some 600) = sLike.handle_429_error none ∧
    ((sLike.handle_429_error (some 600)).can_make_request 300).1 = (true, none) :=
  C7_handle_429_amended sLike (some 600) 300
    (by norm_num [sLike, likeBucket15, likeBucket24, EndpointState.handle_429_error,
      TokenBucket.refill])
    (by norm_num [sLike, likeBucket15, likeBucket24, EndpointState.handle_429_error,
      TokenBucket.refill])

/-- C8: persisting an endpoint's state and reloading it restores exactly
the saved values, and a bucket persisted with 0 tokens at its last-refill
time `T` holds, when refilled at `T + 1` second, exactly one second's
accrual `refill_rate` (proportional refill, not a reset to capacity). -/
theorem C8_roundtrip_proportional_refill (s : EndpointState) (T : ℚ)
    (h0 : s.bucket_15min.tokens = 0) (hT : s.bucket_15min.last_refill = T)
    (hrate : s.bucket_15min.refill_rate ≤ s.bucket_15min.capacity) :
    loadEndpoint (saveEndpoint s) = s ∧
    ((loadEndpoint (saveEndpoint s)).bucket_15min.refill (T + 1)).tokens
      = s.bucket_15min.refill_rate := by
  refine ⟨rfl, ?_⟩
  show (s.bucket_15min.refill (T + 1)).tokens = s.bucket_15min.refill_rate
  unfold TokenBucket.refill
  rw [hT, h0]
  have h1 : T + 1 - T = 1 := by ring
  rw [h1]
  rw [if_pos (by norm_num : (0:ℚ) < 1)]
  show min s.bucket_15min.capacity (0 + 1 * s.bucket_15min.refill_rate)
      = s.bucket_15min.refill_rate
  rw [zero_add, one_mul, min_eq_right hrate]

/-- Witness for C8: the LIKE slice persisted with an empty short bucket at
time 500 and reloaded; refilling at 501 yields exactly `1/900` tokens. -/
theorem C8_roundtrip_proportional_refill_witness :
    loadEndpoint (saveEndpoint ⟨⟨1, 0, 500, 1/900⟩, likeBucket24, []⟩)
        = ⟨⟨1, 0, 500, 1/900⟩, likeBucket24, []⟩ ∧
    ((loadEndpoint (saveEndpoint ⟨⟨1, 0, 500, 1/900⟩, likeBucket24, []⟩)).bucket_15min.refill
        (500 + 1)).tokens
      = (⟨⟨1, 0, 500, 1/900⟩, likeBucket24, []⟩ : EndpointState).bucket_15min.refill_rate :=
  C8_roundtrip_proportional_refill ⟨⟨1, 0, 500, 1/900⟩, likeBucket24, []⟩ 500
    rfl rfl (by norm_num)

/-- C4 counterexample: at `likeScore=72, retweetScore=71` (safe, low risk,
not blacklisted, threshold 60) the spec's table — rule 3 at `≥70 && ≥70` —
yields `both`, but the code yields `like`: its `both` rule requires both
scores ≥ 75. -/
theorem C4_counterexample :
    determine_recommended_action 72 71 ⟨true⟩ RiskLevel.low = RecAction.like ∧
    specRecommendedAction 72 71 60 false true RiskLevel.low = RecAction.both := by
  decide

/-- C4 amended: for a safe, non-high-risk candidate the recommended action
follows the spec's table amended in two places — `both` requires
`likeScore ≥ 75 ∧ retweetScore ≥ 75` (not 70/70), and the final threshold
is the hard-coded 60 rather than the configured minimum engagement score
(ties at that rule go to retweet). -/
theorem C4_rule_table_amended (like_score retweet_score : ℤ) (risk : RiskLevel)
    (hrisk : risk ≠ RiskLevel.high) :
    determine_recommended_action like_score retweet_score ⟨true⟩ risk
      = amendedRecommendedAction like_score retweet_score := by
  have hr : (risk == RiskLevel.high) = false := by
    cases risk <;> simp_all
  unfold determine_recommended_action amendedRecommendedAction
  simp only [hr, Bool.not_true, Bool.or_false, le_max_iff]
  split_ifs <;> first | rfl | omega | simp_all

/-- Witness for C4 at the claim's own instance `likeScore=75,
retweetScore=60`, where both the code and the amended table give `like`. -/
theorem C4_rule_table_amended_witness :
    determine_recommended_action 75 60 ⟨true⟩ RiskLevel.low
      = amendedRecommendedAction 75 60 :=
  C4_rule_table_amended 75 60 RiskLevel.low (by decide)

/-- C10: for equal scores `s` with `60 ≤ s < 70` on a safe, non-high-risk
candidate, the tie in the "whichever is higher" rule resolves to
`retweet`: the code takes `like` only on a strict `like_score >
retweet_score`. -/
theorem C10_tie_prefers_retweet (s : ℤ) (risk : RiskLevel)
    (h60 : 60 ≤ s) (h70 : s < 70) (hrisk : risk ≠ RiskLevel.high) :
    determine_recommended_action s s ⟨true⟩ risk = RecAction.retweet := by
  have hr : (risk == RiskLevel.high) = false := by
    cases risk <;> simp_all
  unfold determine_recommended_action
  simp only [hr, Bool.not_true, Bool.or_false]
  split_ifs <;> first | rfl | omega | simp_all

/-- Witness for C10 at the tied score 65 with low risk. -/
theorem C10_tie_prefers_retweet_witness :
    determine_recommended_action 65 65 ⟨true⟩ RiskLevel.low = RecAction.retweet :=
  C10_tie_prefers_retweet 65 RiskLevel.low (by decide) (by decide) (by decide)

/-- C5 counterexample: when every sub-analysis task of
`analyze_for_like_and_retweet` raises (scorer timeout/error), the
substituted values are `safety=false`, `likeScore=retweetScore=0` and
`risk=high` — not the claimed conservative fallback `safe=true, risk=low,
likeScore=retweetScore=50`. -/
theorem C5_counterexample :
    (analyze_for_like_and_retweet ⟨none, none, none, none⟩).safety_check = false ∧
    (analyze_for_like_and_retweet ⟨none, none, none, none⟩).like_score = 0 ∧
    (analyze_for_like_and_retweet ⟨none, none, none, none⟩).retweet_score = 0 ∧
    (analyze_for_like_and_retweet ⟨none, none, none, none⟩).risk_level = RiskLevel.high := by
  refine ⟨rfl, rfl, rfl, rfl⟩

/-- C5 amended: on a scorer failure of every sub-task the analyzer
substitutes `likeScore=retweetScore=0, safe=false, risk=high`, computes
confidence `0.6`, and the decision through the rule table is `skip` (here
because the substituted safety/risk gate fires, not the engagement
threshold). -/
theorem C5_error_defaults :
    analyze_for_like_and_retweet ⟨none, none, none, none⟩
      = { like_score := 0, retweet_score := 0, safety_check := false,
          risk_level := RiskLevel.high, recommended_action := RecAction.skip,
          confidence := 3/5 } := by
  norm_num [analyze_for_like_and_retweet, determine_recommended_action,
    calculate_confidence]

/-- C3 counterexample: on the LIKE slice whose short bucket holds 0 tokens,
`like_tweet` still issues the external platform call — the pre-call check
(`can_make_request`, a `consume(0)` that passes at any nonnegative token
count) allows it — reports success, and only afterwards runs
`consume_request`, which fails; no admission denial ever precedes the
call and nothing is recorded as `rate_limited_local`. -/
theorem C3_counterexample :
    (like_tweet true sShortEmpty 100 (UpstreamOutcome.responds true) none).1
      = { success := true,
          events := [ClientEvent.rate_check true, ClientEvent.external_call,
                     ClientEvent.consumed false] } := by
  norm_num [like_tweet, sShortEmpty, EndpointState.can_make_request,
    EndpointState.consume_request, TokenBucket.consume, TokenBucket.refill]

/-- C3 amended: for both `like_tweet` and `get_tweet_liking_users`, when
the client is available and the upstream responds, the event order is:
the non-mutating `can_make_request` check (which allows whenever both
refilled token counts are nonnegative), then the external call, then —
after the call — `consume_request`, whose boolean result is discarded;
token consumption never precedes the platform call. -/
theorem C3_consume_follows_call (s : EndpointState) (now : ℚ) (ok : Bool)
    (reset : Option ℚ)
    (h15 : 0 ≤ (s.bucket_15min.refill now).tokens)
    (h24 : 0 ≤ (s.bucket_24hour.refill now).tokens) :
    (like_tweet true s now (UpstreamOutcome.responds ok) reset).1.events
      = [ClientEvent.rate_check true, ClientEvent.external_call,
         ClientEvent.consumed (((s.can_make_request now).2).consume_request now).1] ∧
    (get_tweet_liking_users true s now (UpstreamOutcome.responds ok) reset).1.events
      = [ClientEvent.rate_check true, ClientEvent.external_call,
         ClientEvent.consumed (((s.can_make_request now).2).consume_request now).1] := by
  constructor <;>
    simp [like_tweet, get_tweet_liking_users,
      EndpointState.can_make_request_allows s now h15 h24]

/-- Witness for C3 on the exhausted-short-bucket LIKE slice. -/
theorem C3_consume_follows_call_witness :
    (like_tweet true sShortEmpty 100 (UpstreamOutcome.responds true) none).1.events
      = [ClientEvent.rate_check true, ClientEvent.external_call,
         ClientEvent.consumed
           (((sShortEmpty.can_make_request 100).2).consume_request 100).1] ∧
    (get_tweet_liking_users true sShortEmpty 100 (UpstreamOutcome.responds true) none).1.events
      = [ClientEvent.rate_check true, ClientEvent.external_call,
         ClientEvent.consumed
           (((sShortEmpty.can_make_request 100).2).consume_request 100).1] :=
  C3_consume_follows_call sShortEmpty 100 true none
    (by norm_num [sShortEmpty, TokenBucket.refill])
    (by norm_num [sShortEmpty, TokenBucket.refill])

lemma execute_one_calls (stg : AutomationSettings) (client_ok : APICall → Bool)
    (st : SessionState) (a : UserAnalysis) :
    (execute_one stg client_ok st a).calls = st.calls ++ callsOf stg a := by
  unfold execute_one execute_like execute_retweet callsOf
  cases a.recommended_action <;> dsimp only <;>
    (first | (split_ifs <;> simp_all) | simp_all)

lemma execute_one_results_length (stg : AutomationSettings)
    (client_ok : APICall → Bool) (st : SessionState) (a : UserAnalysis) :
    (execute_one stg client_ok st a).results.length = st.results.length + 1 := by
  unfold execute_one execute_like execute_retweet
  cases a.recommended_action <;> dsimp only <;>
    (first | (split_ifs <;> simp_all) | simp_all)

lemma foldl_execute_one_calls (stg : AutomationSettings)
    (client_ok : APICall → Bool) (analyses : List UserAnalysis) :
    ∀ st : SessionState,
      (analyses.foldl (execute_one stg client_ok) st).calls
        = st.calls ++ plannedCalls stg analyses := by
  induction analyses with
  | nil => intro st; simp [plannedCalls]
  | cons a rest ih =>
      intro st
      rw [List.foldl_cons, ih, execute_one_calls]
      simp [plannedCalls]

lemma foldl_execute_one_results_length (stg : AutomationSettings)
    (client_ok : APICall → Bool) (analyses : List UserAnalysis) :
    ∀ st : SessionState,
      (analyses.foldl (execute_one stg client_ok) st).results.length
        = st.results.length + analyses.length := by
  induction analyses with
  | nil => intro st; simp
  | cons a rest ih =>
      intro st
      rw [List.foldl_cons, ih, execute_one_results_length]
      simp only [List.length_cons]
      omega

/-- C2 counterexample: the engagement history already holds a successful
like record for tweet `t1` (the same idempotency identity: same tenant
session, same target post, same action type), yet re-running the session
over a candidate for `t1`/like issues the external like invocation
again. -/
theorem C2_counterexample :
    (execute_selected_actions true stg30 12 (fun _ => true) 0
        [⟨RecAction.like, "t1", true⟩] [⟨"u1", "t1", RecAction.like⟩]).map
      SessionState.calls
      = some [APICall.like "t1"] := by
  rfl

/-- C2 amended: `execute_selected_actions` computes no idempotency key and
never consults past execution records: in any admitted session the issued
client invocations are exactly `plannedCalls` — a function of the
decisions and enable flags alone, identical for every prior history — so
a candidate whose (post, action) already has a COMPLETED record is
re-executed. -/
theorem C2_no_idempotency_check (twitter_ok : Bool) (stg : AutomationSettings)
    (hour : Nat) (client_ok : APICall → Bool) (daily0 : Nat)
    (history0 : List ExecutionRecord) (analyses : List UserAnalysis)
    (hav : is_available twitter_ok daily0 stg hour = true) :
    (execute_selected_actions twitter_ok stg hour client_ok daily0 history0
        analyses).map SessionState.calls
      = some (plannedCalls stg analyses) := by
  unfold execute_selected_actions
  rw [hav]
  simp [foldl_execute_one_calls]

/-- Witness for C2: the session of `C2_counterexample`, with its
pre-existing COMPLETED like record for `t1`. -/
theorem C2_no_idempotency_check_witness :
    (execute_selected_actions true stg30 12 (fun _ => true) 0
        [⟨RecAction.like, "t1", true⟩] [⟨"u1", "t1", RecAction.like⟩]).map
      SessionState.calls
      = some (plannedCalls stg30 [⟨"u1", "t1", RecAction.like⟩]) :=
  C2_no_idempotency_check true stg30 12 (fun _ => true) 0
    [⟨RecAction.like, "t1", true⟩] [⟨"u1", "t1", RecAction.like⟩] (by decide)

/-- C9 counterexample: with daily quota 2 and three eligible like
candidates, all three are executed (`successful_actions = 3 > 2`); the
quota is never rechecked inside the loop and no candidate is recorded as
skipped for quota exhaustion. -/
theorem C9_counterexample :
    (execute_selected_actions true stg2 12 (fun _ => true) 0 []
        [⟨"u1", "t1", RecAction.like⟩, ⟨"u2", "t2", RecAction.like⟩,
         ⟨"u3", "t3", RecAction.like⟩]).map SessionState.successful_actions
      = some 3 := by
  rfl

/-- C9 amended: the daily quota gates only session entry — a session
started at or above `max_daily_actions` executes nothing (the whole batch
is rejected) — while an admitted session processes every candidate to the
end, producing exactly one result entry per candidate, regardless of how
far the daily count climbs mid-session. -/
theorem C9_quota_gates_only_session_start (twitter_ok : Bool)
    (stg : AutomationSettings) (hour : Nat) (client_ok : APICall → Bool)
    (daily0 : Nat) (history0 : List ExecutionRecord)
    (analyses : List UserAnalysis) :
    (stg.max_daily_actions ≤ daily0 →
      execute_selected_actions twitter_ok stg hour client_ok daily0 history0
        analyses = none) ∧
    (∀ st, execute_selected_actions twitter_ok stg hour client_ok daily0
        history0 analyses = some st → st.results.length = analyses.length) := by
  constructor
  · intro hq
    have hd : decide (daily0 < stg.max_daily_actions) = false :=
      decide_eq_false (Nat.not_lt.mpr hq)
    unfold execute_selected_actions
    simp [is_available, hd]
  · intro st hst
    unfold execute_selected_actions at hst
    by_cases hav : is_available twitter_ok daily0 stg hour
    · rw [hav] at hst
      simp only [Bool.not_true, Bool.false_eq_true, if_neg, ite_false,
        Option.some.injEq] at hst
      subst hst
      rw [foldl_execute_one_results_length]
      simp
    · rw [Bool.not_eq_true] at hav
      rw [hav] at hst
      simp at hst

/-- Witness for C9: a session started with `daily_count = 5` against quota
2 is rejected whole. -/
theorem C9_quota_gates_only_session_start_witness :
    execute_selected_actions true stg2 12 (fun _ => true) 5 []
        [⟨"u1", "t1", RecAction.like⟩] = none :=
  (C9_quota_gates_only_session_start true stg2 12 (fun _ => true) 5 []
    [⟨"u1", "t1", RecAction.like⟩]).1 (by decide)
